import Mathlib

/-!
Verification of the addressable-document core of the substance editor:
the property-selection algebra (src/model/PropertySelection.js) and the
merge transformation engine (the merge transformation module).

Offsets are modelled as `Int` (JavaScript numbers restricted to integers);
paths as `List String` compared element-wise, matching lodash `isEqual`.
Fields that may be `undefined` in JavaScript are modelled as `Option`.
-/

/-- A property selection: both ends live in the same property.
Mirrors the fields set by the `PropertySelection` constructor; `doc`
models the mutable `_internal.doc` back-reference set by `attach`. -/
structure PropertySelection where
  path : List String
  startOffset : Int
  endOffset : Int
  reverse : Bool
  surfaceId : Option String
  doc : Option Nat
deriving DecidableEq, Repr

/-- The `PropertySelection` constructor for present arguments: stores the
fields, coercing `reverse` with `!!` (an absent value becomes `false`),
and leaves the document back-reference null. -/
def PropertySelection.new (path : List String) (startOffset endOffset : Int)
    (reverse : Option Bool) (surfaceId : Option String) : PropertySelection :=
  { path := path, startOffset := startOffset, endOffset := endOffset,
    reverse := reverse.getD false, surfaceId := surfaceId, doc := none }

/-- `isCollapsed()`: start and end offsets coincide. -/
def PropertySelection.isCollapsed (s : PropertySelection) : Bool :=
  s.startOffset == s.endOffset

/-- `startPath` property: for a property selection this is just `path`. -/
def PropertySelection.startPath (s : PropertySelection) : List String := s.path

/-- `endPath` property: for a property selection this is just `path`. -/
def PropertySelection.endPath (s : PropertySelection) : List String := s.path

/-- `isInsideOf(other, strict)` between two (non-null) property selections.
The null-selection and container-selection delegation guards of the source
do not apply because both operands here are property selections. -/
def PropertySelection.isInsideOf (s other : PropertySelection) (strict : Bool) : Bool :=
  if strict then
    decide (s.path = other.path) &&
    decide (s.startOffset > other.startOffset) &&
    decide (s.endOffset < other.endOffset)
  else
    decide (s.path = other.path) &&
    decide (s.startOffset ≥ other.startOffset) &&
    decide (s.endOffset ≤ other.endOffset)

/-- `contains(other, strict)` between two (non-null) property selections. -/
def PropertySelection.contains (s other : PropertySelection) (strict : Bool) : Bool :=
  if strict then
    decide (s.path = other.path) &&
    decide (s.startOffset < other.startOffset) &&
    decide (s.endOffset > other.endOffset)
  else
    decide (s.path = other.path) &&
    decide (s.startOffset ≤ other.startOffset) &&
    decide (s.endOffset ≥ other.endOffset)

/-- `overlaps(other, strict)` between two (non-null) property selections:
different paths never overlap; the strict variant negates
`start ≥ other.end ∨ end ≤ other.start`, the non-strict variant negates
`start > other.end ∨ end < other.start`. -/
def PropertySelection.overlaps (s other : PropertySelection) (strict : Bool) : Bool :=
  if s.path = other.path then
    if strict then
      !(decide (s.startOffset ≥ other.endOffset) || decide (s.endOffset ≤ other.startOffset))
    else
      !(decide (s.startOffset > other.endOffset) || decide (s.endOffset < other.startOffset))
  else
    false

/-- `createWithNewRange(startOffset, endOffset)`: a fresh selection on the
same path and surface, with `reverse` hard-coded to `false`, re-attached to
the same document when one was attached. -/
def PropertySelection.createWithNewRange (s : PropertySelection)
    (startOffset endOffset : Int) : PropertySelection :=
  { path := s.path, startOffset := startOffset, endOffset := endOffset,
    reverse := false, surfaceId := s.surfaceId, doc := s.doc }

/-- `createWithNewRange` invoked with possibly-undefined offsets (as happens
in `truncate` when neither boundary matches): the `PropertySelection`
constructor validates `isNumber(startOffset)` and throws the
invalid-arguments error when the offsets are undefined. `truncate` computes
either both offsets or neither, so mixed definedness does not occur. -/
def PropertySelection.createWithNewRangeOpt (s : PropertySelection)
    (startOffset endOffset : Option Int) : Except String PropertySelection :=
  match startOffset, endOffset with
  | some a, some b => .ok (s.createWithNewRange a b)
  | _, _ => .error "Invalid arguments: `path` and `startOffset` are mandatory"

/-- `collapse(direction)`: collapse to `startOffset` for `"left"`, otherwise
to `endOffset`. -/
def PropertySelection.collapse (s : PropertySelection) (direction : String) : PropertySelection :=
  if direction = "left" then s.createWithNewRange s.startOffset s.startOffset
  else s.createWithNewRange s.endOffset s.endOffset

/-- `expand(other)`: requires an identical path, then takes the convex hull
of the two offset ranges. -/
def PropertySelection.expand (s other : PropertySelection) : Except String PropertySelection :=
  if s.path = other.path then
    .ok (s.createWithNewRange (min s.startOffset other.startOffset)
      (max s.endOffset other.endOffset))
  else
    .error "Can not expand PropertySelection to a different property."

/-- `truncate(other)`: requires matching start/end paths; removes the
overlapping sub-range from one boundary. When neither boundary matches,
both new offsets stay undefined and `createWithNewRange` rejects them. -/
def PropertySelection.truncate (s other : PropertySelection) : Except String PropertySelection :=
  if s.startPath = other.startPath ∧ s.endPath = other.endPath then
    let offsets : Option Int × Option Int :=
      if s.startOffset = other.startOffset then
        (some other.endOffset, some s.endOffset)
      else if s.endOffset = other.endOffset then
        (some s.startOffset, some other.startOffset)
      else
        (none, none)
    s.createWithNewRangeOpt offsets.1 offsets.2
  else
    .error "Can not expand PropertySelection to a different property."

/-- The serialized selection record `{type, path, startOffset, endOffset,
reverse, surfaceId}`; optional fields model properties that may be absent. -/
structure SelectionJSON where
  type : String
  path : List String
  startOffset : Int
  endOffset : Option Int
  reverse : Option Bool
  surfaceId : Option String
deriving DecidableEq, Repr

/-- `toJSON()`: emits every field. -/
def PropertySelection.toJSON (s : PropertySelection) : SelectionJSON :=
  { type := "property", path := s.path, startOffset := s.startOffset,
    endOffset := some s.endOffset, reverse := some s.reverse,
    surfaceId := s.surfaceId }

/-- `fromJSON(json)`: `endOffset` defaults to `startOffset` when the
property is absent; the constructor coerces `reverse`. -/
def PropertySelection.fromJSON (json : SelectionJSON) : PropertySelection :=
  PropertySelection.new json.path json.startOffset
    (json.endOffset.getD json.startOffset) json.reverse json.surfaceId

/-- Modelled from the spec: the minimal structural-node contract (§6 and
§3 "Structural node") — `id`, `type` tag, the textish capability probe
`isInstanceOf('text')`, and for textish nodes the current text. -/
structure Node where
  id : String
  type : String
  isText : Bool
  text : String
deriving DecidableEq, Repr

/-- Modelled from the spec: `getTextPath()` of a text-bearing node is the
path to its text content, node id plus field name (§3 "Path"). -/
def Node.getTextPath (n : Node) : List String := [n.id, "content"]

/-- A text-range annotation record anchored in the property at `path`
(named `Annot` here; the spec calls these annotations). -/
structure Annot where
  path : List String
  startOffset : Nat
  endOffset : Nat
deriving DecidableEq, Repr

/-- Modelled from the spec: the document write-handle and single container
(§6) — node storage, the container's visible child order, and the
annotation store touched by annotation transfer. -/
structure Doc where
  nodes : List Node
  containerOrder : List String
  annots : List Annot
deriving DecidableEq, Repr

/-- Modelled from the spec: `get(id)` resolves a node record by id. -/
def Doc.getNode (d : Doc) (id : String) : Option Node :=
  d.nodes.find? (fun n => n.id == id)

/-- Modelled from the spec: `delete(id)` removes the record from storage. -/
def Doc.deleteNode (d : Doc) (id : String) : Doc :=
  { d with nodes := d.nodes.filter (fun n => n.id ≠ id) }

/-- Modelled from the spec: `container.hide(id)` removes the unit from the
container's visible order (traversal/addressing), not from storage. -/
def Doc.hide (d : Doc) (id : String) : Doc :=
  { d with containerOrder := d.containerOrder.filter (fun x => x ≠ id) }

/-- Insert `v` into `s` at character position `offset`. -/
def strInsert (s : String) (offset : Nat) (v : String) : String :=
  ⟨s.data.take offset ++ v.data ++ s.data.drop offset⟩

/-- Modelled from the spec: `update(path, \x7b insert: \x7b offset, value \x7d \x7d)`
splices `value` into the text stored at `path`. -/
def Doc.updateInsert (d : Doc) (path : List String) (offset : Nat) (value : String) : Doc :=
  { d with nodes := d.nodes.map (fun n =>
      if n.getTextPath = path then { n with text := strInsert n.text offset value } else n) }

/-- Modelled from the spec: the annotation-transfer collaborator (§4.5) —
re-anchor every annotation at `sourcePath` overlapping `[sourceOffset, ∞)`
onto `destPath`, shifted by `destOffset - sourceOffset`. -/
def transferAnnotations (d : Doc) (sourcePath : List String) (sourceOffset : Nat)
    (destPath : List String) (destOffset : Nat) : Doc :=
  { d with annots := d.annots.map (fun a =>
      if a.path = sourcePath ∧ a.startOffset ≥ sourceOffset then
        { a with path := destPath,
                 startOffset := a.startOffset - sourceOffset + destOffset,
                 endOffset := a.endOffset - sourceOffset + destOffset }
      else a) }

/-- Modelled from the spec: container addressing (§4.3) — `getAddress(path)`
resolves the position of the unit owning `path` (its first element is the
node id) within the container's visible order. -/
def Doc.getAddress (d : Doc) (path : List String) : Option Nat :=
  match path with
  | id :: _ => d.containerOrder.findIdx? (fun x => x == id)
  | [] => none

/-- Modelled from the spec: `getNextAddress` — the following position, or
absent at the container's last unit. -/
def Doc.getNextAddress (d : Doc) (a : Nat) : Option Nat :=
  if a + 1 < d.containerOrder.length then some (a + 1) else none

/-- Modelled from the spec: `getPreviousAddress` — the preceding position,
or absent at the container's first unit. -/
def Doc.getPreviousAddress (_d : Doc) (a : Nat) : Option Nat :=
  if a = 0 then none else some (a - 1)

/-- Modelled from the spec: `getChildAt` resolves the address back to the
owning structural node. -/
def Doc.getChildAt (d : Doc) (i : Nat) : Option Node :=
  (d.containerOrder.get? i).bind d.getNode

/-- Modelled from the spec: `createSelection` on a property descriptor
whose `endOffset` is absent yields a collapsed property selection
(deserialization defaults `endOffset` to `startOffset`). Document
attachment is not tracked for selections produced by the write-handle. -/
def Doc.createCollapsedSelection (path : List String) (startOffset : Int) : PropertySelection :=
  PropertySelection.fromJSON
    { type := "property", path := path, startOffset := startOffset,
      endOffset := none, reverse := none, surfaceId := none }

/-- Modelled from the spec: the injectable editing-behavior registry (§3) —
the set of `(typeA, typeB)` pairs for which a node merger is registered.
`canMerge` is registry membership; `getMerger` returns the registered
strategy, identified here by its key pair. -/
structure EditingBehavior where
  mergers : List (String × String)
deriving DecidableEq, Repr

/-- Modelled from the spec: `canMerge(t1, t2)` probes the registry. -/
def EditingBehavior.canMerge (b : EditingBehavior) (t1 t2 : String) : Bool :=
  b.mergers.contains (t1, t2)

/-- The merge strategy resolved by `_getNodeMerger`: either an externally
registered merger (identified by the registry key it was looked up under)
or the built-in text merge. -/
inductive MergeStrategy where
  | registered (key : String × String)
  | builtinTextMerge
deriving DecidableEq, Repr

/-- `_getNodeMerger(behavior, node, otherNode)`: the fallback chain of the
source — exact pair, then `('textish', other.type)` when the first node is
textish, then `(node.type, 'textish')` when the second is, then (with or
without a registry) the built-in text merge when both are textish, else no
strategy (reported and treated as a no-op). -/
def getNodeMerger (behavior : Option EditingBehavior) (node otherNode : Node) :
    Option MergeStrategy :=
  let fromRegistry : Option MergeStrategy :=
    match behavior with
    | some b =>
      if b.canMerge node.type otherNode.type then
        some (.registered (node.type, otherNode.type))
      else if node.isText && b.canMerge "textish" otherNode.type then
        some (.registered ("textish", otherNode.type))
      else if otherNode.isText && b.canMerge node.type "textish" then
        some (.registered (node.type, "textish"))
      else none
    | none => none
  match fromRegistry with
  | some m => some m
  | none =>
    if node.isText && otherNode.isText then some .builtinTextMerge
    else none

/-- `_mergeTextNodes(tx, args)`: the built-in text merge of two textish
nodes `first` and `second` in the container. -/
def mergeTextNodes (tx : Doc) (first second : Node) : Doc × PropertySelection :=
  let firstPath := first.getTextPath
  let firstText := first.text
  let firstLength := firstText.length
  let secondPath := second.getTextPath
  let secondText := second.text
  if firstLength = 0 then
    let tx := tx.hide first.id
    let tx := tx.deleteNode first.id
    (tx, Doc.createCollapsedSelection secondPath 0)
  else
    let tx := tx.updateInsert firstPath firstLength secondText
    let tx := transferAnnotations tx secondPath 0 firstPath firstLength
    let tx := tx.hide second.id
    let tx := tx.deleteNode second.id
    (tx, Doc.createCollapsedSelection firstPath (firstLength : Int))

/-- `_mergeComponents(tx, args)`: resolves both structural nodes and
dispatches. The same-node component mergers and the externally registered
node mergers are external custom strategies (outside this core), modelled
as identity on the document; the built-in text merge is executed. Returns
the new document and the `selection` carried in the returned args. -/
def mergeComponents (tx : Doc) (behavior : Option EditingBehavior)
    (sel : Option PropertySelection) (firstAddress secondAddress : Nat) :
    Doc × Option PropertySelection :=
  match tx.getChildAt firstAddress, tx.getChildAt secondAddress with
  | some firstNode, some secondNode =>
    if firstNode = secondNode then
      (tx, sel)
    else
      match getNodeMerger behavior firstNode secondNode with
      | some .builtinTextMerge =>
        let r := mergeTextNodes tx firstNode secondNode
        (r.1, some r.2)
      | some (.registered _) => (tx, sel)
      | none => (tx, sel)
  | _, _ => (tx, sel)

/-- The arguments record of the merge transformation: the three mandatory
fields (as possibly-absent values), the optional behavior registry, and
the selection slot the transformation writes into. -/
structure MergeArgs where
  containerId : Option String
  path : Option (List String)
  direction : Option String
  editingBehavior : Option EditingBehavior
  selection : Option PropertySelection
deriving DecidableEq, Repr

/-- `merge(tx, args)`: validates the three mandatory fields (an absent or
empty value is falsy), resolves the address of `path`, then the neighbor
in the requested direction, and runs `_mergeComponents` on the ordered
pair; no neighbor, an unknown direction, or an unresolvable address is a
no-op. -/
def merge (tx : Doc) (args : MergeArgs) : Except String (Doc × MergeArgs) :=
  match args.containerId, args.path, args.direction with
  | some containerId, some path, some direction =>
    if containerId = "" ∨ direction = "" then
      .error "Insufficient arguments! mandatory fields: `containerId`, `path`, `direction`"
    else
      match tx.getAddress path with
      | none => .ok (tx, args)
      | some address =>
        if direction = "right" then
          match tx.getNextAddress address with
          | some nextAddress =>
            let tmp := mergeComponents tx args.editingBehavior args.selection address nextAddress
            .ok (tmp.1, { args with selection := tmp.2 })
          | none => .ok (tx, args)
        else if direction = "left" then
          match tx.getPreviousAddress address with
          | some previousAddress =>
            let tmp := mergeComponents tx args.editingBehavior args.selection previousAddress address
            .ok (tmp.1, { args with selection := tmp.2 })
          | none => .ok (tx, args)
        else
          .ok (tx, args)
  | _, _, _ =>
    .error "Insufficient arguments! mandatory fields: `containerId`, `path`, `direction`"

/-- Sample selection: `["p1","content"]`, offsets 0..1. -/
def selOv1 : PropertySelection := ⟨["p1", "content"], 0, 1, false, none, none⟩

/-- Sample selection: `["p1","content"]`, offsets 1..2, touching `selOv1`. -/
def selOv2 : PropertySelection := ⟨["p1", "content"], 1, 2, false, none, none⟩

/-- Sample selection: `["p1","content"]`, offsets 0..2. -/
def selTr1 : PropertySelection := ⟨["p1", "content"], 0, 2, false, none, none⟩

/-- Sample selection: `["p1","content"]`, offsets 1..3 (shares no boundary
with `selTr1`). -/
def selTr2 : PropertySelection := ⟨["p1", "content"], 1, 3, false, none, none⟩

/-- Sample selection: `["p1","content"]`, offsets 0..5 (left-aligned with
`selTr1`), reversed, with a surface and an attached document. -/
def selTr3 : PropertySelection := ⟨["p1", "content"], 0, 5, true, some "body", some 7⟩

/-- Sample selection: offsets 1..5 on `["p1","content"]`. -/
def selIn1 : PropertySelection := ⟨["p1", "content"], 1, 5, false, none, none⟩

/-- Sample selection: offsets 2..4 on `["p1","content"]`, strictly inside
`selIn1`. -/
def selIn2 : PropertySelection := ⟨["p1", "content"], 2, 4, true, none, none⟩

/-- Sample selection on a different property `["p2","content"]`. -/
def selOther : PropertySelection := ⟨["p2", "content"], 0, 3, false, none, none⟩

/-- Sample reversed selection with every optional field set. -/
def selFull : PropertySelection := ⟨["p9", "content"], 2, 8, true, some "surf1", some 3⟩

/-- Sample serialized record with `endOffset` absent. -/
def jsonNoEnd : SelectionJSON :=
  { type := "property", path := ["p1", "content"], startOffset := 4,
    endOffset := none, reverse := none, surfaceId := none }

/-- Sample textish node `a1` with text `"foo"`. -/
def nodeA : Node := { id := "a1", type := "paragraph", isText := true, text := "foo" }

/-- Sample textish node `b1` with text `"bar"`. -/
def nodeB : Node := { id := "b1", type := "paragraph", isText := true, text := "bar" }

/-- Sample empty textish node `e1`. -/
def nodeE : Node := { id := "e1", type := "paragraph", isText := true, text := "" }

/-- Sample non-textish node `i1`. -/
def nodeImg : Node := { id := "i1", type := "image", isText := false, text := "" }

/-- Sample non-textish node `i2`. -/
def nodeImg2 : Node := { id := "i2", type := "figure", isText := false, text := "" }

/-- Sample document: container `[a1, b1]` with one annotation on `b1`'s
text range `[0,1)`. -/
def sampleDoc : Doc :=
  { nodes := [nodeA, nodeB], containerOrder := ["a1", "b1"],
    annots := [⟨["b1", "content"], 0, 1⟩] }

/-- Sample document whose container holds two non-textish nodes. -/
def docNoText : Doc :=
  { nodes := [nodeImg, nodeImg2], containerOrder := ["i1", "i2"], annots := [] }

/-- Sample merge arguments: direction `"left"` at `a1`, the container's
first unit. -/
def argsLeftAtFirst : MergeArgs :=
  { containerId := some "body", path := some ["a1", "content"],
    direction := some "left", editingBehavior := none, selection := none }

/-- Sample merge arguments with the mandatory `direction` field absent. -/
def argsNoDirection : MergeArgs :=
  { containerId := some "body", path := some ["a1", "content"],
    direction := none, editingBehavior := none, selection := none }

/-- The merge-strategy resolution as the spec words it, for comparison
with `getNodeMerger`: (1) the exact `(first.type, second.type)` pair when
registered; (2) else `("textish", second.type)` when the first node is
textish and that pair is registered; (3) else `(first.type, "textish")`
when the second node is textish and that pair is registered; (4) else —
also when no registry is supplied at all — the built-in text merge when
both nodes are textish; (5) else no strategy. -/
def nodeMergerSpec (behavior : Option EditingBehavior) (node otherNode : Node) :
    Option MergeStrategy :=
  match behavior with
  | some b =>
    if b.canMerge node.type otherNode.type then
      some (.registered (node.type, otherNode.type))
    else if node.isText && b.canMerge "textish" otherNode.type then
      some (.registered ("textish", otherNode.type))
    else if otherNode.isText && b.canMerge node.type "textish" then
      some (.registered (node.type, "textish"))
    else if node.isText && otherNode.isText then
      some .builtinTextMerge
    else none
  | none =>
    if node.isText && otherNode.isText then some .builtinTextMerge else none


/-- Claim C3 counterexample: for same-path selections sharing neither
boundary (offsets 0..2 versus 1..3), `truncate` does not return a
selection with undefined offsets — the `PropertySelection` constructor
invoked via `createWithNewRange` rejects the undefined offsets, so the
call fails with the invalid-arguments error, contradicting "no failure
raised by truncate itself". -/
theorem truncate_claim_cex :
    selTr1.truncate selTr2 =
      Except.error "Invalid arguments: `path` and `startOffset` are mandatory" := rfl

/-- Claim C3 (amended): for property selections with matching start and
end paths, if the start offsets match the result spans `other.endOffset`
to `this.endOffset`; else if the end offsets match it spans
`this.startOffset` to `other.startOffset`; in any other boundary
configuration both new offsets stay undefined, so the constructor invoked
via `createWithNewRange` fails with the invalid-arguments error. -/
theorem truncate_spec (s t : PropertySelection) (h : s.path = t.path) :
    (s.startOffset = t.startOffset →
      s.truncate t = Except.ok
        ⟨s.path, t.endOffset, s.endOffset, false, s.surfaceId, s.doc⟩) ∧
    (s.startOffset ≠ t.startOffset → s.endOffset = t.endOffset →
      s.truncate t = Except.ok
        ⟨s.path, s.startOffset, t.startOffset, false, s.surfaceId, s.doc⟩) ∧
    (s.startOffset ≠ t.startOffset → s.endOffset ≠ t.endOffset →
      s.truncate t =
        Except.error "Invalid arguments: `path` and `startOffset` are mandatory") := by
  refine ⟨fun h1 => ?_, fun h1 h2 => ?_, fun h1 h2 => ?_⟩
  · simp [PropertySelection.truncate, PropertySelection.startPath,
      PropertySelection.endPath, PropertySelection.createWithNewRangeOpt,
      PropertySelection.createWithNewRange, h, h1]
  · simp [PropertySelection.truncate, PropertySelection.startPath,
      PropertySelection.endPath, PropertySelection.createWithNewRangeOpt,
      PropertySelection.createWithNewRange, h, h1, h2]
  · simp [PropertySelection.truncate, PropertySelection.startPath,
      PropertySelection.endPath, PropertySelection.createWithNewRangeOpt,
      PropertySelection.createWithNewRange, h, h1, h2]

/-- Claim C3 witness: `selTr3` (0..5) and `selTr1` (0..2) share the start
boundary, and truncation yields the selection 2..5. -/
theorem truncate_spec_witness :
    selTr3.path = selTr1.path ∧ selTr3.startOffset = selTr1.startOffset ∧
    selTr3.truncate selTr1 = Except.ok
      ⟨selTr3.path, selTr1.endOffset, selTr3.endOffset, false,
        selTr3.surfaceId, selTr3.doc⟩ :=
  ⟨by decide, by decide, (truncate_spec selTr3 selTr1 (by decide)).1 (by decide)⟩

/-- Claim C4 counterexample: at the boundary-touching pair 0..1 and 1..2
(same path) the code's non-strict `overlaps` returns `true`, while the
claim's formula `¬(start ≥ other.end ∨ end ≤ other.start)` evaluates to
`false` — the claim assigns the strict formula to the non-strict test. -/
theorem overlaps_claim_cex :
    ¬ (selOv1.overlaps selOv2 false = true ↔
        ¬(selOv1.startOffset ≥ selOv2.endOffset ∨
          selOv1.endOffset ≤ selOv2.startOffset)) := by
  decide

/-- Claim C4 (amended): for same-path property selections, the non-strict
test `s.overlaps(t)` returns the negation of
`s.startOffset > t.endOffset ∨ s.endOffset < t.startOffset` (boundary
touches count as overlap), and the strict variant `s.overlaps(t, true)`
returns the negation of
`s.startOffset ≥ t.endOffset ∨ s.endOffset ≤ t.startOffset`, which
additionally excludes exact boundary touches. -/
theorem overlaps_spec (s t : PropertySelection) (h : s.path = t.path) :
    (s.overlaps t false = true ↔
      ¬(s.startOffset > t.endOffset ∨ s.endOffset < t.startOffset)) ∧
    (s.overlaps t true = true ↔
      ¬(s.startOffset ≥ t.endOffset ∨ s.endOffset ≤ t.startOffset)) := by
  constructor <;> simp [PropertySelection.overlaps, h]

/-- Claim C4 witness: the touching pair 0..1 and 1..2 overlaps
non-strictly and not strictly. -/
theorem overlaps_spec_witness :
    selOv1.path = selOv2.path ∧
    ((selOv1.overlaps selOv2 false = true ↔
      ¬(selOv1.startOffset > selOv2.endOffset ∨
        selOv1.endOffset < selOv2.startOffset)) ∧
     (selOv1.overlaps selOv2 true = true ↔
      ¬(selOv1.startOffset ≥ selOv2.endOffset ∨
        selOv1.endOffset ≤ selOv2.startOffset))) :=
  ⟨by decide, overlaps_spec selOv1 selOv2 (by decide)⟩

/-- Claim C5: `expand` on an identical path yields the convex hull
`min(start, start)..max(end, end)` on that path, and fails with the
cross-property-operation error ("Can not expand PropertySelection to a
different property.") when the paths differ. -/
theorem expand_spec (s t : PropertySelection) :
    (s.path = t.path →
      s.expand t = Except.ok
        ⟨s.path, min s.startOffset t.startOffset,
          max s.endOffset t.endOffset, false, s.surfaceId, s.doc⟩) ∧
    (s.path ≠ t.path →
      s.expand t =
        Except.error "Can not expand PropertySelection to a different property.") := by
  constructor <;> intro h <;>
    simp [PropertySelection.expand, PropertySelection.createWithNewRange, h]

/-- Claim C5 witness: expanding 0..2 by 1..3 on the same path yields 0..3;
expanding onto a different property fails. -/
theorem expand_spec_witness :
    (selTr1.path = selTr2.path ∧
      selTr1.expand selTr2 = Except.ok
        ⟨selTr1.path, min selTr1.startOffset selTr2.startOffset,
          max selTr1.endOffset selTr2.endOffset, false,
          selTr1.surfaceId, selTr1.doc⟩) ∧
    (selTr1.path ≠ selOther.path ∧
      selTr1.expand selOther =
        Except.error "Can not expand PropertySelection to a different property.") :=
  ⟨⟨by decide, (expand_spec selTr1 selTr2).1 (by decide)⟩,
   ⟨by decide, (expand_spec selTr1 selOther).2 (by decide)⟩⟩

/-- Claim C6: for same-path property selections, non-strict `contains` and
`isInsideOf` are converses (`s.contains(t) = t.isInsideOf(s)`), and each
strict variant implies its non-strict counterpart. -/
theorem contains_isInsideOf_duality (s t : PropertySelection) (h : s.path = t.path) :
    (s.contains t false = t.isInsideOf s false) ∧
    (s.contains t true = true → s.contains t false = true) ∧
    (s.isInsideOf t true = true → s.isInsideOf t false = true) := by
  refine ⟨?_, ?_, ?_⟩
  · simp [PropertySelection.contains, PropertySelection.isInsideOf, h]
  · simp only [PropertySelection.contains, Bool.ite_eq_true_distrib, if_true]
    simp only [Bool.and_eq_true, decide_eq_true_eq, and_imp]
    intro hp h1 h2
    exact ⟨⟨hp, by omega⟩, by omega⟩
  · simp only [PropertySelection.isInsideOf, Bool.ite_eq_true_distrib, if_true]
    simp only [Bool.and_eq_true, decide_eq_true_eq, and_imp]
    intro hp h1 h2
    exact ⟨⟨hp, by omega⟩, by omega⟩

/-- Claim C6 witness: 1..5 strictly contains 2..4 on the same path, hence
also non-strictly; the duality holds at this pair. -/
theorem contains_isInsideOf_duality_witness :
    selIn1.path = selIn2.path ∧
    selIn1.contains selIn2 true = true ∧
    selIn1.contains selIn2 false = true :=
  ⟨by decide, by decide,
    (contains_isInsideOf_duality selIn1 selIn2 (by decide)).2.1 (by decide)⟩

/-- Claim C7: `fromJSON(toJSON(s))` reproduces `s`'s path, offsets,
reverse flag and surfaceId; and a serialized record without `endOffset`
deserializes with `endOffset = startOffset`, a collapsed selection. -/
theorem fromJSON_toJSON_roundtrip (s : PropertySelection) (j : SelectionJSON) :
    ((PropertySelection.fromJSON s.toJSON).path = s.path ∧
     (PropertySelection.fromJSON s.toJSON).startOffset = s.startOffset ∧
     (PropertySelection.fromJSON s.toJSON).endOffset = s.endOffset ∧
     (PropertySelection.fromJSON s.toJSON).reverse = s.reverse ∧
     (PropertySelection.fromJSON s.toJSON).surfaceId = s.surfaceId) ∧
    (j.endOffset = none →
      (PropertySelection.fromJSON j).endOffset = (PropertySelection.fromJSON j).startOffset ∧
      (PropertySelection.fromJSON j).isCollapsed = true) := by
  constructor
  · simp [PropertySelection.fromJSON, PropertySelection.toJSON, PropertySelection.new]
  · intro h
    simp [PropertySelection.fromJSON, PropertySelection.new,
      PropertySelection.isCollapsed, h]

/-- Claim C7 witness: the default at a record lacking `endOffset` yields a
collapsed selection (the round-trip half of the theorem is
hypothesis-free). -/
theorem fromJSON_toJSON_roundtrip_witness :
    jsonNoEnd.endOffset = none ∧
    (PropertySelection.fromJSON jsonNoEnd).endOffset =
      (PropertySelection.fromJSON jsonNoEnd).startOffset ∧
    (PropertySelection.fromJSON jsonNoEnd).isCollapsed = true :=
  ⟨by decide,
    ((fromJSON_toJSON_roundtrip selFull jsonNoEnd).2 (by decide)).1,
    ((fromJSON_toJSON_roundtrip selFull jsonNoEnd).2 (by decide)).2⟩

/-- Claim C10: every selection built by `createWithNewRange` — hence every
result of `collapse`, `expand` and `truncate` — has `reverse = false` even
when the source selection was reversed, and keeps the source's path,
surfaceId and document back-reference. -/
theorem createWithNewRange_resets_reverse (s t : PropertySelection)
    (a b : Int) (d : String) (r u : PropertySelection) :
    ((s.createWithNewRange a b).reverse = false ∧
     (s.createWithNewRange a b).path = s.path ∧
     (s.createWithNewRange a b).surfaceId = s.surfaceId ∧
     (s.createWithNewRange a b).doc = s.doc) ∧
    ((s.collapse d).reverse = false ∧
     (s.collapse d).path = s.path ∧
     (s.collapse d).surfaceId = s.surfaceId ∧
     (s.collapse d).doc = s.doc) ∧
    (s.expand t = Except.ok r →
      r.reverse = false ∧ r.path = s.path ∧
      r.surfaceId = s.surfaceId ∧ r.doc = s.doc) ∧
    (s.truncate t = Except.ok u →
      u.reverse = false ∧ u.path = s.path ∧
      u.surfaceId = s.surfaceId ∧ u.doc = s.doc) := by
  refine ⟨?_, ?_, ?_, ?_⟩
  · simp [PropertySelection.createWithNewRange]
  · by_cases hd : d = "left" <;>
      simp [PropertySelection.collapse, PropertySelection.createWithNewRange, hd]
  · intro h
    by_cases hp : s.path = t.path
    · simp only [PropertySelection.expand, if_pos hp, Except.ok.injEq] at h
      subst h
      simp [PropertySelection.createWithNewRange]
    · simp [PropertySelection.expand, hp] at h
  · intro h
    by_cases hp : s.path = t.path
    · simp only [PropertySelection.truncate, PropertySelection.startPath,
        PropertySelection.endPath, hp, and_self, if_true,
        PropertySelection.createWithNewRangeOpt] at h
      by_cases h1 : s.startOffset = t.startOffset
      · simp only [h1, if_true, Except.ok.injEq] at h
        subst h
        simp [PropertySelection.createWithNewRange]
      · by_cases h2 : s.endOffset = t.endOffset
        · simp only [h1, h2, if_false, if_true, ite_false, ite_true,
            Except.ok.injEq] at h
          subst h
          simp [PropertySelection.createWithNewRange]
        · simp [h1, h2] at h
    · simp [PropertySelection.truncate, PropertySelection.startPath,
        PropertySelection.endPath, hp] at h

/-- Claim C10 witness: `selTr3` is reversed, carries a surface and a
document; its expansion by `selTr1` succeeds and the result has
`reverse = false` with path, surface and document preserved. -/
theorem createWithNewRange_resets_reverse_witness :
    selTr3.expand selTr1 =
      Except.ok ⟨["p1", "content"], 0, 5, false, some "body", some 7⟩ ∧
    ((⟨["p1", "content"], 0, 5, false, some "body", some 7⟩ : PropertySelection).reverse = false ∧
     (⟨["p1", "content"], 0, 5, false, some "body", some 7⟩ : PropertySelection).path = selTr3.path ∧
     (⟨["p1", "content"], 0, 5, false, some "body", some 7⟩ : PropertySelection).surfaceId = selTr3.surfaceId ∧
     (⟨["p1", "content"], 0, 5, false, some "body", some 7⟩ : PropertySelection).doc = selTr3.doc) :=
  ⟨rfl,
    (createWithNewRange_resets_reverse selTr3 selTr1 0 0 "left"
      ⟨["p1", "content"], 0, 5, false, some "body", some 7⟩ selTr1).2.2.1 rfl⟩

/-- Inserting at the end of a string appends. -/
theorem strInsert_at_length (s v : String) : strInsert s s.length v = s ++ v := by
  apply String.ext
  show s.data.take s.length ++ v.data ++ s.data.drop s.length = (s ++ v).data
  rw [String.data_append, show s.length = s.data.length from rfl,
    List.take_length, List.drop_length, List.append_nil]

/-- Two nodes share a text path exactly when they share an id. -/
theorem getTextPath_eq_iff (n m : Node) : n.getTextPath = m.getTextPath ↔ n.id = m.id := by
  simp [Node.getTextPath]

/-- Claim C2: cross-node merge-strategy resolution follows exactly the
priority order of the spec-side description `nodeMergerSpec` — exact
registered pair, then `("textish", second.type)` for a textish first node,
then `(first.type, "textish")` for a textish second node, then the
built-in text merge when both are textish (also with no registry at all)
— and when no strategy resolves, the cross-node merge is reported and
treated as a no-op, not as an error. -/
theorem getNodeMerger_priority (b : Option EditingBehavior) (n m : Node)
    (tx : Doc) (sel : Option PropertySelection) (i j : Nat) :
    getNodeMerger b n m = nodeMergerSpec b n m ∧
    (tx.getChildAt i = some n → tx.getChildAt j = some m → n ≠ m →
      getNodeMerger b n m = none → mergeComponents tx b sel i j = (tx, sel)) := by
  constructor
  · cases b with
    | none => rfl
    | some beh =>
      by_cases h1 : beh.canMerge n.type m.type = true <;>
      by_cases h2 : (n.isText && beh.canMerge "textish" m.type) = true <;>
      by_cases h3 : (m.isText && beh.canMerge n.type "textish") = true <;>
        simp [getNodeMerger, nodeMergerSpec, h1, h2, h3]
  · intro hi hj hne hnone
    simp [mergeComponents, hi, hj, hne, hnone]

/-- Claim C2 witness: two non-textish nodes with no registry resolve no
strategy and the cross-node merge leaves the document and selection
unchanged. -/
theorem getNodeMerger_priority_witness :
    docNoText.getChildAt 0 = some nodeImg ∧
    docNoText.getChildAt 1 = some nodeImg2 ∧
    nodeImg ≠ nodeImg2 ∧
    getNodeMerger none nodeImg nodeImg2 = none ∧
    mergeComponents docNoText none none 0 1 = (docNoText, none) :=
  ⟨by decide, by decide, by decide, by decide,
    (getNodeMerger_priority none nodeImg nodeImg2 docNoText none 0 1).2
      (by decide) (by decide) (by decide) (by decide)⟩

/-- Claim C9: whenever any of the mandatory fields `containerId`, `path`
or `direction` is absent, merge fails with the insufficient-arguments
error; the result is the same for every document state, so no document
state is read or mutated before the failure. -/
theorem merge_missing_args_error (tx : Doc) (args : MergeArgs)
    (h : args.containerId = none ∨ args.path = none ∨ args.direction = none) :
    merge tx args =
      Except.error "Insufficient arguments! mandatory fields: `containerId`, `path`, `direction`" := by
  obtain ⟨c, p, d, eb, sel⟩ := args
  cases c <;> cases p <;> cases d <;> simp_all [merge]

/-- Claim C9 witness: arguments lacking `direction` make merge fail on the
sample document. -/
theorem merge_missing_args_error_witness :
    (argsNoDirection.containerId = none ∨ argsNoDirection.path = none ∨
      argsNoDirection.direction = none) ∧
    merge sampleDoc argsNoDirection =
      Except.error "Insufficient arguments! mandatory fields: `containerId`, `path`, `direction`" :=
  ⟨Or.inr (Or.inr rfl),
    merge_missing_args_error sampleDoc argsNoDirection (Or.inr (Or.inr rfl))⟩

/-- Claim C8: when the structural unit at the resolved address has no
neighbor in the requested direction (no previous address for `"left"`,
no next address for `"right"`), merge is a silent no-op: the document is
returned unchanged and the returned args carry no new selection. -/
theorem merge_boundary_noop (tx : Doc) (args : MergeArgs) (cid : String)
    (p : List String) (a : Nat)
    (hc : args.containerId = some cid) (hc0 : ¬cid = "")
    (hp : args.path = some p)
    (ha : tx.getAddress p = some a) :
    (args.direction = some "left" → tx.getPreviousAddress a = none →
      merge tx args = Except.ok (tx, args)) ∧
    (args.direction = some "right" → tx.getNextAddress a = none →
      merge tx args = Except.ok (tx, args)) := by
  constructor <;> intro hd hn <;>
    simp [merge, hc, hp, hd, hc0, ha, hn]

/-- Claim C8 witness: direction `"left"` at the container's first unit
(`a1` in the sample document) leaves document and args unchanged. -/
theorem merge_boundary_noop_witness :
    argsLeftAtFirst.direction = some "left" ∧
    sampleDoc.getPreviousAddress 0 = none ∧
    merge sampleDoc argsLeftAtFirst = Except.ok (sampleDoc, argsLeftAtFirst) :=
  ⟨rfl, rfl,
    (merge_boundary_noop sampleDoc argsLeftAtFirst "body" ["a1", "content"] 0
      rfl (by decide) rfl (by decide)).1 rfl rfl⟩

/-- Claim C1: the built-in text merge of textish nodes `first` and
`second`. If `first`'s text is empty, `first` is hidden from the container
and deleted from the document (annotations untouched) and the returned
selection is collapsed at offset 0 on `second`'s text path. Otherwise
`second`'s full text is appended to `first`'s text at `first`'s original
length, every annotation anchored in `second`'s text moves onto `first`'s
text shifted by that length, `second` is hidden and deleted, and the
returned selection is collapsed on `first`'s text path at `first`'s
original length. -/
theorem mergeTextNodes_correct (tx : Doc) (first second : Node)
    (_hft : first.isText = true) (_hst : second.isText = true)
    (htext : ∀ n ∈ tx.nodes, n.id = first.id → n.text = first.text) :
    (first.text.length = 0 →
      (mergeTextNodes tx first second).1.containerOrder =
        tx.containerOrder.filter (fun x => x ≠ first.id) ∧
      (mergeTextNodes tx first second).1.nodes =
        tx.nodes.filter (fun n => n.id ≠ first.id) ∧
      (mergeTextNodes tx first second).1.annots = tx.annots ∧
      (mergeTextNodes tx first second).2 =
        ⟨second.getTextPath, 0, 0, false, none, none⟩) ∧
    (first.text.length ≠ 0 →
      (mergeTextNodes tx first second).1.nodes =
        (tx.nodes.map (fun n =>
          if n.id = first.id then { n with text := n.text ++ second.text } else n)).filter
          (fun n => n.id ≠ second.id) ∧
      (mergeTextNodes tx first second).1.containerOrder =
        tx.containerOrder.filter (fun x => x ≠ second.id) ∧
      (mergeTextNodes tx first second).1.annots =
        tx.annots.map (fun x =>
          if x.path = second.getTextPath then
            { x with path := first.getTextPath,
                     startOffset := x.startOffset + first.text.length,
                     endOffset := x.endOffset + first.text.length }
          else x) ∧
      (mergeTextNodes tx first second).2 =
        ⟨first.getTextPath, (first.text.length : Int), (first.text.length : Int),
          false, none, none⟩) := by
  refine ⟨fun h0 => ?_, fun h0 => ?_⟩
  · simp [mergeTextNodes, h0, Doc.hide, Doc.deleteNode,
      Doc.createCollapsedSelection, PropertySelection.fromJSON, PropertySelection.new]
  · have hins : ∀ n ∈ tx.nodes,
        (if n.getTextPath = first.getTextPath then
          { n with text := strInsert n.text first.text.length second.text } else n) =
        (if n.id = first.id then { n with text := n.text ++ second.text } else n) := by
      intro n hn
      by_cases hid : n.id = first.id
      · rw [if_pos ((getTextPath_eq_iff n first).2 hid), if_pos hid,
          htext n hn hid, strInsert_at_length]
      · rw [if_neg (fun hq => hid ((getTextPath_eq_iff n first).1 hq)), if_neg hid]
    have hann : ∀ x ∈ tx.annots,
        (if x.path = second.getTextPath ∧ x.startOffset ≥ 0 then
          { x with path := first.getTextPath,
                   startOffset := x.startOffset - 0 + first.text.length,
                   endOffset := x.endOffset - 0 + first.text.length }
         else x) =
        (if x.path = second.getTextPath then
          { x with path := first.getTextPath,
                   startOffset := x.startOffset + first.text.length,
                   endOffset := x.endOffset + first.text.length }
         else x) := by
      intro x _
      simp
    refine ⟨?_, ?_, ?_, ?_⟩
    · simp only [mergeTextNodes, h0, if_false, ite_false, Doc.updateInsert,
        transferAnnotations, Doc.hide, Doc.deleteNode]
      exact congrArg (List.filter _) (List.map_congr_left hins)
    · simp [mergeTextNodes, h0, Doc.updateInsert, transferAnnotations,
        Doc.hide, Doc.deleteNode]
    · simp only [mergeTextNodes, h0, if_false, ite_false, Doc.updateInsert,
        transferAnnotations, Doc.hide, Doc.deleteNode]
      exact List.map_congr_left hann
    · simp [mergeTextNodes, h0, Doc.createCollapsedSelection,
        PropertySelection.fromJSON, PropertySelection.new]

/-- Claim C1 witness: merging `a1 = "foo"` with `b1 = "bar"` in the sample
document produces `"foobar"` on `a1`, removes `b1`, and collapses the
selection at offset 3 of `a1`'s text path; the annotation on `b1` `[0,1)`
is re-anchored (covered by the theorem's annotation conjunct). -/
theorem mergeTextNodes_correct_witness :
    nodeA.text.length ≠ 0 ∧
    (∀ n ∈ sampleDoc.nodes, n.id = nodeA.id → n.text = nodeA.text) ∧
    (mergeTextNodes sampleDoc nodeA nodeB).1.nodes =
      (sampleDoc.nodes.map (fun n =>
        if n.id = nodeA.id then { n with text := n.text ++ nodeB.text } else n)).filter
        (fun n => n.id ≠ nodeB.id) ∧
    (mergeTextNodes sampleDoc nodeA nodeB).2 =
      ⟨nodeA.getTextPath, (nodeA.text.length : Int), (nodeA.text.length : Int),
        false, none, none⟩ :=
  ⟨by decide, by decide,
    (((mergeTextNodes_correct sampleDoc nodeA nodeB rfl rfl (by decide)).2) (by decide)).1,
    (((mergeTextNodes_correct sampleDoc nodeA nodeB rfl rfl (by decide)).2) (by decide)).2.2.2⟩
